import Mathlib

/-!
Verification of the helpdesk backend's ticket lifecycle, access control and
reporting engine, as a shallow embedding of the JavaScript sources
(`models/Ticket.js`, the ticket controller, `routes/tickets.js`).

Modelling conventions:
* JavaScript timestamps (`Date`) are milliseconds since the epoch, as `Int`;
  a request's single current time is a `now : Int` parameter.
* MongoDB documents are Lean structures; `null` / missing optional fields are
  `Option.none`; the store is a `List Ticket` and `findById` is `List.find?`.
* Fallible endpoints return `Except OpError`.
* `Math.round` on a quotient of integers is modelled exactly by `jsRoundDiv`
  (floor of `n / d + 1/2`); `String.prototype.trim` by the structural
  `strTrim` so that all definitions evaluate by kernel reduction.
-/

namespace Helpdesk

/-- Error taxonomy of the HTTP layer: 400 validation, 404 not found, 403. -/
inductive OpError where
  | validationError
  | notFound
  | accessDenied
deriving DecidableEq, Repr

/-- The authenticated principal (`req.user`), produced by the auth middleware. -/
structure Principal where
  id : String
  role : String
deriving DecidableEq, Repr

/-- A comment subdocument (`commentSchema` in `models/Ticket.js`). -/
structure TicketComment where
  user : String
  text : String
  isInternal : Bool
  createdAt : Int
deriving DecidableEq, Repr

/-- A ticket document (`ticketSchema` in `models/Ticket.js`). -/
structure Ticket where
  id : String
  title : String
  description : String
  status : String
  priority : String
  category : String
  createdBy : String
  assignedTo : Option String
  slaDeadline : Int
  comments : List TicketComment
  resolutionTime : Option Int
  resolvedAt : Option Int
  createdAt : Int
  updatedAt : Int
deriving DecidableEq, Repr

/-- The client request body of `POST /api/tickets`: arbitrary JSON, of which
the controller destructures `title`, `description`, `category`, `priority`;
the remaining recognisable ticket fields model extra client-supplied data. -/
structure TicketDraft where
  title : Option String
  description : Option String
  category : Option String
  priority : Option String
  status : Option String
  assignedTo : Option String
  slaDeadline : Option Int
  resolutionTime : Option Int
  resolvedAt : Option Int
deriving DecidableEq, Repr

/-- A draft with no fields supplied. -/
def emptyDraft : TicketDraft :=
  ⟨none, none, none, none, none, none, none, none, none⟩

/-- The client request body of `PUT /api/tickets/:id` (`req.body`), passed
verbatim to `findByIdAndUpdate`; a `some` field is present in the JSON. -/
structure UpdatePatch where
  title : Option String
  description : Option String
  status : Option String
  priority : Option String
  category : Option String
  createdBy : Option String
  assignedTo : Option String
  slaDeadline : Option Int
  resolutionTime : Option Int
  resolvedAt : Option Int
deriving DecidableEq, Repr

/-- A patch with no fields supplied. -/
def emptyPatch : UpdatePatch :=
  ⟨none, none, none, none, none, none, none, none, none, none⟩

/-- The JSON body of `GET /api/tickets/dashboard/stats`. -/
structure StatsReport where
  totalTickets : Nat
  openTickets : Nat
  pendingTickets : Nat
  resolvedTickets : Nat
  closedTickets : Nat
  avgResolutionTime : Int
  slaComplianceRate : Int
  slaCompliantTickets : Nat
  priorityStats : List (String × Nat)
  categoryStats : List (String × Nat)
  statusStats : List (String × Nat)
  recentTickets : Nat
  slaNormal : Nat
  slaWarning : Nat
  slaBreached : Nat
deriving DecidableEq, Repr

/-! ### JavaScript primitives -/

/-- JavaScript falsiness of an optional string: `undefined` or `""`. -/
def falsyS : Option String → Bool
  | none => true
  | some s => s == ""

/-- JavaScript `String.prototype.trim`, structurally (strip whitespace at both ends). -/
def strTrim (s : String) : String :=
  ⟨((s.data.dropWhile Char.isWhitespace).reverse.dropWhile Char.isWhitespace).reverse⟩

/-- JavaScript `Math.round (n / d)` for integer `n` and positive integer `d`, computed
exactly: the floor of `n / d + 1/2` equals `(2n + d) / 2d` in floor division
(Lean's `Int` division is Euclidean, which is floor division for `d > 0`). -/
def jsRoundDiv (n : Int) (d : Nat) : Int := (2 * n + (d : Int)) / (2 * (d : Int))

/-! ### Schema enumerations and validators (`models/Ticket.js`) -/

def validStatus (s : String) : Bool := ["open", "pending", "resolved", "closed"].contains s

def validPriority (s : String) : Bool := ["low", "medium", "high", "urgent"].contains s

def validCategory (s : String) : Bool :=
  ["technical", "billing", "general", "feature-request", "bug"].contains s

/-- The `slaStatus` mongoose virtual of `models/Ticket.js`. -/
def slaStatus (t : Ticket) (now : Int) : String :=
  if t.status == "resolved" || t.status == "closed" then "completed"
  else if t.slaDeadline - now < 0 then "breached"
  else if t.slaDeadline - now < 2 * 60 * 60 * 1000 then "warning"
  else "normal"

/-! ### Controller: create -/

/-- Controller `createTicket`: validates presence of the four destructured fields, sets
`slaDeadline = now + 24h`, and stores via `Ticket.create`, applying the
schema's trim/maxlength/enum validation and defaults (`status = open`,
`resolutionTime = null`). -/
def createTicket (u : Principal) (body : TicketDraft) (newId : String) (now : Int) :
    Except OpError Ticket :=
  if falsyS body.title || falsyS body.description || falsyS body.category ||
      falsyS body.priority then
    .error .validationError
  else
    let title := strTrim (body.title.getD "")
    let description := strTrim (body.description.getD "")
    let category := body.category.getD ""
    let priority := body.priority.getD ""
    if title == "" || decide (title.length > 100) || description == "" ||
        !(validCategory category) || !(validPriority priority) then
      .error .validationError
    else
      .ok { id := newId
            title := title
            description := description
            status := "open"
            priority := priority
            category := category
            createdBy := u.id
            assignedTo := none
            slaDeadline := now + 24 * 60 * 60 * 1000
            comments := []
            resolutionTime := none
            resolvedAt := none
            createdAt := now
            updatedAt := now }

/-! ### Controller: list -/

/-- Controller `getTickets`: role-scoped listing, sorted by `createdAt` descending. -/
def getTickets (u : Principal) (store : List Ticket) : List Ticket :=
  (store.filter (fun t =>
      (if u.role == "user" then t.createdBy == u.id else true) &&
      (if u.role == "agent" then t.assignedTo == some u.id else true))).mergeSort
    (fun a b => decide (b.createdAt ≤ a.createdAt))

/-! ### Controller: single-ticket access -/

/-- The agent arm of the permission checks: an agent passes iff the ticket is
assigned and assigned to them (`!assignedToId || assignedToId !== req.user.id`
denies). -/
def agentHasAccess (u : Principal) (t : Ticket) : Bool :=
  match t.assignedTo with
  | none => false
  | some a => a == u.id

/-- Controller `getTicket`: 404 when the id resolves to no ticket, then the role checks
of the controller (only the values `user` and `agent` are gated). -/
def getTicket (u : Principal) (store : List Ticket) (id : String) : Except OpError Ticket :=
  match store.find? (fun t => t.id == id) with
  | none => .error .notFound
  | some t =>
    if u.role == "user" && t.createdBy != u.id then .error .accessDenied
    else if u.role == "agent" && !(agentHasAccess u t) then .error .accessDenied
    else .ok t

/-! ### Controller: update -/

/-- Mongoose `findByIdAndUpdate(id, req.body)` with `new: true`: every field present in the
patch overwrites the stored one; mongoose timestamps refresh `updatedAt`. -/
def applyPatch (t : Ticket) (p : UpdatePatch) (now : Int) : Ticket :=
  { t with
    title := (p.title.map strTrim).getD t.title
    description := (p.description.map strTrim).getD t.description
    status := p.status.getD t.status
    priority := p.priority.getD t.priority
    category := p.category.getD t.category
    createdBy := p.createdBy.getD t.createdBy
    assignedTo := match p.assignedTo with | some a => some a | none => t.assignedTo
    slaDeadline := p.slaDeadline.getD t.slaDeadline
    resolutionTime := match p.resolutionTime with | some r => some r | none => t.resolutionTime
    resolvedAt := match p.resolvedAt with | some r => some r | none => t.resolvedAt
    updatedAt := now }

/-- Option `runValidators: true`: the schema validators on the paths present in the
patch (enum membership, trimmed non-emptiness, title maxlength). -/
def patchValid (p : UpdatePatch) : Bool :=
  (match p.status with | some s => validStatus s | none => true) &&
  (match p.priority with | some s => validPriority s | none => true) &&
  (match p.category with | some s => validCategory s | none => true) &&
  (match p.title with
   | some s => strTrim s != "" && decide ((strTrim s).length ≤ 100)
   | none => true) &&
  (match p.description with | some s => strTrim s != "" | none => true)

/-- Controller `updateTicket`: 404, then the role checks, then the lifecycle hook — when
the desired status is `resolved` and the stored status is not, the controller
writes `resolvedAt = now` and `resolutionTime = Math.round((now - createdAt)
/ 60000)` into the patch — then the validated atomic update. -/
def updateTicket (u : Principal) (store : List Ticket) (id : String) (body : UpdatePatch)
    (now : Int) : Except OpError Ticket :=
  match store.find? (fun t => t.id == id) with
  | none => .error .notFound
  | some t =>
    if u.role == "user" && t.createdBy != u.id then .error .accessDenied
    else if u.role == "agent" && !(agentHasAccess u t) then .error .accessDenied
    else
      let body :=
        if body.status == some "resolved" && t.status != "resolved" then
          { body with
            resolvedAt := some now
            resolutionTime := some (jsRoundDiv (now - t.createdAt) (1000 * 60)) }
        else body
      if patchValid body then .ok (applyPatch t body now) else .error .validationError

/-! ### Controller: comment -/

/-- Controller `addComment`: empty-after-trim text is rejected, then 404, then the same
role checks, then an append of the comment subdocument. -/
def addComment (u : Principal) (store : List Ticket) (id : String) (text : Option String)
    (isInternal : Option Bool) (now : Int) : Except OpError Ticket :=
  if falsyS text || strTrim (text.getD "") == "" then .error .validationError
  else
    match store.find? (fun t => t.id == id) with
    | none => .error .notFound
    | some t =>
      if u.role == "user" && t.createdBy != u.id then .error .accessDenied
      else if u.role == "agent" && !(agentHasAccess u t) then .error .accessDenied
      else
        .ok { t with
              comments := t.comments ++
                [{ user := u.id
                   text := strTrim (text.getD "")
                   isInternal := isInternal.getD false
                   createdAt := now }]
              updatedAt := now }

/-! ### Controller: dashboard stats -/

/-- The base query (`statsQuery`) of `getDashboardStats`: agents see only
tickets assigned to them; every other role gets the empty filter. -/
def statsScope (u : Principal) : Ticket → Bool :=
  fun t => if u.role == "agent" then t.assignedTo == some u.id else true

/-- Query `resolutionTime not null and greater than 0` of the average. -/
def hasPosResTime (t : Ticket) : Bool :=
  match t.resolutionTime with
  | some v => decide (0 < v)
  | none => false

/-- Check `ticket.resolvedAt <= ticket.slaDeadline` inside the compliance loop. -/
def slaCompliantB (t : Ticket) : Bool :=
  match t.resolvedAt with
  | some r => decide (r ≤ t.slaDeadline)
  | none => false

/-- The `reduce`-sum of `resolutionTime` over a list of tickets. -/
def resTimeSum (l : List Ticket) : Int :=
  (l.map (fun t => t.resolutionTime.getD 0)).sum

/-- Aggregation by match and group (`_id: field, count: sum 1`)
over an already-matched list: one `(value, count)` group per present value. -/
def aggregateCountsBy (l : List Ticket) (f : Ticket → String) : List (String × Nat) :=
  ((l.map f).dedup).map (fun v => (v, (l.filter (fun t => f t == v)).length))

/-- The body of `getDashboardStats` (everything after the middleware): each
statistic is its own store query merged with `statsQuery`, exactly as the
controller issues them. -/
def getDashboardStats (u : Principal) (store : List Ticket) (now : Int) : StatsReport :=
  let resolvedWithTime :=
    store.filter (fun t => statsScope u t && (t.status == "resolved" && hasPosResTime t))
  let rc := store.filter (fun t => statsScope u t &&
    ((t.status == "resolved" || t.status == "closed") && t.resolvedAt != none))
  let compliant := (rc.filter slaCompliantB).length
  let active := (store.filter (fun t => statsScope u t)).filter
    (fun t => !(t.status == "resolved" || t.status == "closed"))
  { totalTickets := (store.filter (fun t => statsScope u t)).length
    openTickets := (store.filter (fun t => statsScope u t && t.status == "open")).length
    pendingTickets := (store.filter (fun t => statsScope u t && t.status == "pending")).length
    resolvedTickets := (store.filter (fun t => statsScope u t && t.status == "resolved")).length
    closedTickets := (store.filter (fun t => statsScope u t && t.status == "closed")).length
    avgResolutionTime :=
      if 0 < resolvedWithTime.length then
        jsRoundDiv (resTimeSum resolvedWithTime) resolvedWithTime.length
      else 0
    slaComplianceRate := if 0 < rc.length then jsRoundDiv (100 * compliant) rc.length else 0
    slaCompliantTickets := compliant
    priorityStats := aggregateCountsBy (store.filter (fun t => statsScope u t)) (fun t => t.priority)
    categoryStats := aggregateCountsBy (store.filter (fun t => statsScope u t)) (fun t => t.category)
    statusStats := aggregateCountsBy (store.filter (fun t => statsScope u t)) (fun t => t.status)
    recentTickets := (store.filter (fun t => statsScope u t &&
      decide (now - 7 * 24 * 60 * 60 * 1000 ≤ t.createdAt))).length
    slaNormal := (active.filter (fun t => decide (2 * 60 * 60 * 1000 ≤ t.slaDeadline - now))).length
    slaWarning := (active.filter (fun t => decide (0 ≤ t.slaDeadline - now) &&
      decide (t.slaDeadline - now < 2 * 60 * 60 * 1000))).length
    slaBreached := (active.filter (fun t => decide (t.slaDeadline - now < 0))).length }

/-- Modelled from the spec: the `admin` middleware of `middleware/auth.js` is
referenced by `routes/tickets.js` on the stats route but its source is not in
the repository's files here; per §4.4/§6 of the spec, reporting is denied
exactly for role `user` ("access-denied for role `user`"; admins and agents
both hold reporting access). -/
def adminGateAllows (u : Principal) : Bool := u.role != "user"

/-- The full `GET /api/tickets/dashboard/stats` endpoint: the (spec-modelled)
gate, then the controller. -/
def statsEndpoint (u : Principal) (store : List Ticket) (now : Int) :
    Except OpError StatsReport :=
  if adminGateAllows u then .ok (getDashboardStats u store now) else .error .accessDenied

/-- The same statistics computed in a single pass over an already-scoped
ticket list — the reference form the scoping claims compare against. -/
def computeStatsFrom (l : List Ticket) (now : Int) : StatsReport :=
  let resolvedWithTime := l.filter (fun t => t.status == "resolved" && hasPosResTime t)
  let rc := l.filter
    (fun t => (t.status == "resolved" || t.status == "closed") && t.resolvedAt != none)
  let compliant := (rc.filter slaCompliantB).length
  let active := l.filter (fun t => !(t.status == "resolved" || t.status == "closed"))
  { totalTickets := l.length
    openTickets := (l.filter (fun t => t.status == "open")).length
    pendingTickets := (l.filter (fun t => t.status == "pending")).length
    resolvedTickets := (l.filter (fun t => t.status == "resolved")).length
    closedTickets := (l.filter (fun t => t.status == "closed")).length
    avgResolutionTime :=
      if 0 < resolvedWithTime.length then
        jsRoundDiv (resTimeSum resolvedWithTime) resolvedWithTime.length
      else 0
    slaComplianceRate := if 0 < rc.length then jsRoundDiv (100 * compliant) rc.length else 0
    slaCompliantTickets := compliant
    priorityStats := aggregateCountsBy l (fun t => t.priority)
    categoryStats := aggregateCountsBy l (fun t => t.category)
    statusStats := aggregateCountsBy l (fun t => t.status)
    recentTickets := (l.filter (fun t => decide (now - 7 * 24 * 60 * 60 * 1000 ≤ t.createdAt))).length
    slaNormal := (active.filter (fun t => decide (2 * 60 * 60 * 1000 ≤ t.slaDeadline - now))).length
    slaWarning := (active.filter (fun t => decide (0 ≤ t.slaDeadline - now) &&
      decide (t.slaDeadline - now < 2 * 60 * 60 * 1000))).length
    slaBreached := (active.filter (fun t => decide (t.slaDeadline - now < 0))).length }

/-! ### General helper lemmas -/

/-- Composing two filters is one filter by the conjunction. -/
theorem filter_filter_and {α : Type} (l : List α) (q p : α → Bool) :
    (l.filter q).filter p = l.filter (fun a => q a && p a) := by
  induction l with
  | nil => rfl
  | cons h t ih => by_cases hq : q h <;> by_cases hp : p h <;> simp [List.filter, hq, hp, ih]

/-- The per-query controller computes exactly the single-pass statistics of
its scoped ticket set. -/
theorem getDashboardStats_eq_computeStatsFrom (u : Principal) (store : List Ticket) (now : Int) :
    getDashboardStats u store now = computeStatsFrom (store.filter (statsScope u)) now := by
  simp only [getDashboardStats, computeStatsFrom, filter_filter_and]

/-- Exact-rounding bridge: the integer computation `jsRoundDiv` is the floor
of the rational `n / d + 1/2`, i.e. JavaScript's `Math.round (n / d)`. -/
theorem jsRoundDiv_eq_floor (n : Int) (d : Nat) (hd : 0 < d) :
    jsRoundDiv n d = Int.floor ((n : ℚ) / (d : ℚ) + 1 / 2) := by
  have hdq : ((d : ℚ)) ≠ 0 := by exact_mod_cast hd.ne'
  have hq : ((n : ℚ) / (d : ℚ) + 1 / 2) = (((2 * n + (d : Int) : Int) : ℚ) / ((2 * d : Nat) : ℚ)) := by
    push_cast
    field_simp
    ring
  rw [hq, Rat.floor_intCast_div_natCast]
  simp only [jsRoundDiv]
  push_cast
  rfl

/-! ### Concrete sample data for witnesses and counterexamples -/

def pUser : Principal := ⟨"u1", "user"⟩

def pAgent : Principal := ⟨"g1", "agent"⟩

def pAdmin : Principal := ⟨"a1", "admin"⟩

/-- A principal whose role is outside the three documented values. -/
def pBoss : Principal := ⟨"b1", "superuser"⟩

def baseTicket : Ticket :=
  { id := "t1"
    title := "Printer down"
    description := "It smokes"
    status := "open"
    priority := "high"
    category := "technical"
    createdBy := "u1"
    assignedTo := some "g1"
    slaDeadline := 86400000
    comments := []
    resolutionTime := none
    resolvedAt := none
    createdAt := 0
    updatedAt := 0 }

def draftOk : TicketDraft :=
  { emptyDraft with
    title := some "Printer down"
    description := some "It smokes"
    category := some "technical"
    priority := some "high" }

/-- The ticket `createTicket pUser draftOk "t9" 5` produces. -/
def createdSample : Ticket :=
  { id := "t9"
    title := "Printer down"
    description := "It smokes"
    status := "open"
    priority := "high"
    category := "technical"
    createdBy := "u1"
    assignedTo := none
    slaDeadline := 86400005
    comments := []
    resolutionTime := none
    resolvedAt := none
    createdAt := 5
    updatedAt := 5 }

/-! ### C5 -/

/-- C5: for every ticket and read time, the derived slaStatus is `completed`
when the status is resolved or closed, otherwise `breached` when the deadline
minus now is strictly negative, otherwise `warning` when it is strictly below
two hours, otherwise `normal`. -/
theorem slaStatus_classification (t : Ticket) (now : Int) :
    slaStatus t now =
      if t.status = "resolved" ∨ t.status = "closed" then "completed"
      else if t.slaDeadline - now < 0 then "breached"
      else if t.slaDeadline - now < 2 * 60 * 60 * 1000 then "warning"
      else "normal" := by
  by_cases h1 : t.status = "resolved" <;> by_cases h2 : t.status = "closed" <;>
    simp [slaStatus, h1, h2]

/-! ### C6 -/

/-- C6: every ticket the create operation produces has
`slaDeadline = createdAt + 24` hours. -/
theorem createTicket_slaDeadline_eq (u : Principal) (body : TicketDraft) (newId : String)
    (now : Int) (t : Ticket) (h : createTicket u body newId now = .ok t) :
    t.slaDeadline = t.createdAt + 24 * 60 * 60 * 1000 := by
  unfold createTicket at h
  split at h
  · cases h
  · dsimp only at h
    split at h
    · cases h
    · cases h
      rfl

theorem createTicket_slaDeadline_eq_witness :
    createdSample.slaDeadline = createdSample.createdAt + 24 * 60 * 60 * 1000 :=
  createTicket_slaDeadline_eq pUser draftOk "t9" 5 createdSample (by rfl)

/-! ### C10 -/

/-- C10: the create operation reads only title, description, category and
priority from the client body — any two drafts agreeing there create the same
ticket — and every created ticket has status `open`, no `assignedTo`, null
`resolutionTime` and unset `resolvedAt`, whatever the draft supplied. -/
theorem createTicket_ignores_extra_fields (u : Principal) (body : TicketDraft)
    (newId : String) (now : Int) :
    createTicket u body newId now =
      createTicket u
        { emptyDraft with
          title := body.title
          description := body.description
          category := body.category
          priority := body.priority } newId now ∧
    ∀ t, createTicket u body newId now = .ok t →
      t.status = "open" ∧ t.assignedTo = none ∧ t.resolutionTime = none ∧
        t.resolvedAt = none := by
  refine ⟨rfl, fun t h => ?_⟩
  unfold createTicket at h
  split at h
  · cases h
  · dsimp only at h
    split at h
    · cases h
    · cases h
      exact ⟨rfl, rfl, rfl, rfl⟩

/-! ### C3 -/

/-- C3: with the role one of the three documented values, the single-ticket
get succeeds iff the principal is an admin, the creating user, or the
assigned agent; a missing id is not-found for every role, and an existing
ticket with a failing condition is access-denied. -/
theorem getTicket_access_spec (u : Principal) (store : List Ticket) (id : String)
    (hrole : u.role = "user" ∨ u.role = "agent" ∨ u.role = "admin") :
    (store.find? (fun t => t.id == id) = none → getTicket u store id = .error .notFound) ∧
    ∀ t, store.find? (fun t => t.id == id) = some t →
      ((getTicket u store id = .ok t ↔
        (u.role = "admin" ∨ u.role = "user" ∧ t.createdBy = u.id ∨
          u.role = "agent" ∧ t.assignedTo = some u.id)) ∧
       (¬(u.role = "admin" ∨ u.role = "user" ∧ t.createdBy = u.id ∨
          u.role = "agent" ∧ t.assignedTo = some u.id) →
        getTicket u store id = .error .accessDenied)) := by
  refine ⟨fun hn => by simp [getTicket, hn], fun t ht => ?_⟩
  rcases hrole with h | h | h
  · by_cases hc : t.createdBy = u.id <;>
      constructor <;> simp [getTicket, ht, h, hc]
  · rcases ha : t.assignedTo with _ | a
    · constructor <;> simp [getTicket, agentHasAccess, ht, h, ha]
    · by_cases haa : a = u.id <;>
        constructor <;> simp [getTicket, agentHasAccess, ht, h, ha, haa]
  · constructor <;> simp [getTicket, ht, h]

theorem getTicket_access_spec_witness :
    getTicket pUser [baseTicket] "t1" = .ok baseTicket ∧
    getTicket pAgent [baseTicket] "t1" = .ok baseTicket := by
  constructor
  · exact ((getTicket_access_spec pUser [baseTicket] "t1" (by decide)).2 baseTicket
      (by decide)).1.mpr (by decide)
  · exact ((getTicket_access_spec pAgent [baseTicket] "t1" (by decide)).2 baseTicket
      (by decide)).1.mpr (by decide)

/-! ### C9 -/

/-- C9: a principal whose role is none of user, agent or admin is gated by
nothing: the list operation applies no scope filter (it returns exactly the
store, reordered), and get, update and comment never return access-denied. -/
theorem unknown_role_gets_admin_access (u : Principal) (store : List Ticket) (id : String)
    (body : UpdatePatch) (text : Option String) (isInternal : Option Bool) (now : Int)
    (hrole : u.role ≠ "user" ∧ u.role ≠ "agent" ∧ u.role ≠ "admin") :
    (∀ t, t ∈ getTickets u store ↔ t ∈ store) ∧
    (∀ t, store.find? (fun x => x.id == id) = some t → getTicket u store id = .ok t) ∧
    updateTicket u store id body now ≠ .error .accessDenied ∧
    addComment u store id text isInternal now ≠ .error .accessDenied := by
  obtain ⟨h1, h2, -⟩ := hrole
  have hu : (u.role == "user") = false := by simpa using h1
  have hg : (u.role == "agent") = false := by simpa using h2
  refine ⟨fun t => ?_, fun t ht => ?_, ?_, ?_⟩
  · simp [getTickets, List.mem_mergeSort, List.mem_filter, hu, hg]
  · simp [getTicket, ht, hu, hg]
  · rcases hf : store.find? (fun t => t.id == id) with _ | t <;>
      simp [updateTicket, hf, hu, hg] <;> split <;> split <;> simp
  · by_cases hft : (falsyS text || strTrim (text.getD "") == "") = true
    · simp [addComment, hft]
    · rcases hf : store.find? (fun t => t.id == id) with _ | t <;>
        simp [addComment, hft, hf, hu, hg]

theorem unknown_role_gets_admin_access_witness :
    getTicket pBoss [baseTicket] "t1" = .ok baseTicket :=
  (unknown_role_gets_admin_access pBoss [baseTicket] "t1" emptyPatch none none 0
      (by decide)).2.1 baseTicket (by decide)

/-! ### Structure of a successful update -/

/-- Helper: a successful update returns the stored ticket patched with the
request body, with the resolution fields injected into the body exactly when
the desired status is `resolved` and the stored status is not. -/
theorem updateTicket_ok_cases (u : Principal) (store : List Ticket) (id : String)
    (body : UpdatePatch) (now : Int) (t t' : Ticket)
    (hfind : store.find? (fun x => x.id == id) = some t)
    (h : updateTicket u store id body now = .ok t') :
    (body.status = some "resolved" ∧ t.status ≠ "resolved" ∧
      t' = applyPatch t
        { body with
          resolvedAt := some now
          resolutionTime := some (jsRoundDiv (now - t.createdAt) (1000 * 60)) } now) ∨
    (¬(body.status = some "resolved" ∧ t.status ≠ "resolved") ∧
      t' = applyPatch t body now) := by
  unfold updateTicket at h
  rw [hfind] at h
  dsimp only at h
  split at h
  · cases h
  · split at h
    · cases h
    · by_cases hres : (body.status == some "resolved" && t.status != "resolved") = true
      · rw [if_pos hres] at h
        simp only [Bool.and_eq_true, beq_iff_eq, bne_iff_ne] at hres
        split at h
        · simp only [Except.ok.injEq] at h
          exact Or.inl ⟨hres.1, hres.2, h.symm⟩
        · cases h
      · rw [if_neg hres] at h
        simp only [Bool.and_eq_true, beq_iff_eq, bne_iff_ne, not_and] at hres
        split at h
        · simp only [Except.ok.injEq] at h
          refine Or.inr ⟨fun hc => hres hc.1 hc.2, h.symm⟩
        · cases h

/-! ### C2 -/

/-- A PUT body that carries `slaDeadline` and `createdBy` directly. -/
def hijackPatch : UpdatePatch :=
  { emptyPatch with slaDeadline := some 999, createdBy := some "u2" }

/-- C2 counterexample: the update passes the client body verbatim to the
store, so a concrete PUT body carrying `slaDeadline` and `createdBy` rewrites
both supposedly-immutable fields. -/
theorem updateTicket_rewrites_sla_createdBy_cex :
    baseTicket.slaDeadline = 86400000 ∧ baseTicket.createdBy = "u1" ∧
    (updateTicket pAdmin [baseTicket] "t1" hijackPatch 50).toOption.map
      (fun t => (t.slaDeadline, t.createdBy)) = some (999, "u2") ∧
    ((999 : Int) ≠ 86400000 ∧ ("u2" : String) ≠ "u1") :=
  ⟨rfl, rfl, rfl, by decide⟩

/-- C2 amended: an update whose patch does not itself carry `slaDeadline` or
`createdBy` fields leaves both equal to their pre-update values. -/
theorem updateTicket_preserves_sla_createdBy (u : Principal) (store : List Ticket)
    (id : String) (body : UpdatePatch) (now : Int) (t t' : Ticket)
    (hsla : body.slaDeadline = none) (hcb : body.createdBy = none)
    (hfind : store.find? (fun x => x.id == id) = some t)
    (h : updateTicket u store id body now = .ok t') :
    t'.slaDeadline = t.slaDeadline ∧ t'.createdBy = t.createdBy := by
  rcases updateTicket_ok_cases u store id body now t t' hfind h with ⟨-, -, rfl⟩ | ⟨-, rfl⟩ <;>
    simp [applyPatch, hsla, hcb]

/-- A PUT body that only moves the ticket to `pending`. -/
def pendingPatch : UpdatePatch := { emptyPatch with status := some "pending" }

/-- The result of applying `pendingPatch` to `baseTicket` at time 50. -/
def updatedPending : Ticket := { baseTicket with status := "pending", updatedAt := 50 }

theorem updateTicket_preserves_sla_createdBy_witness :
    updatedPending.slaDeadline = baseTicket.slaDeadline ∧
    updatedPending.createdBy = baseTicket.createdBy :=
  updateTicket_preserves_sla_createdBy pAdmin [baseTicket] "t1" pendingPatch 50 baseTicket
    updatedPending rfl rfl (by rfl) (by rfl)

/-! ### C4 -/

/-- A PUT body that does not resolve the ticket yet carries the resolution
fields directly. -/
def sneakResolvedPatch : UpdatePatch :=
  { emptyPatch with resolvedAt := some 777, resolutionTime := some 42 }

/-- C4 counterexample: an update that does not satisfy the resolve condition
still rewrites `resolvedAt`/`resolutionTime` when the body carries them, so
they are not always left as previously stored. -/
theorem updateTicket_resolution_injection_cex :
    baseTicket.status = "open" ∧ baseTicket.resolvedAt = none ∧
    baseTicket.resolutionTime = none ∧
    (updateTicket pAdmin [baseTicket] "t1" sneakResolvedPatch 50).toOption.map
      (fun t => (t.resolvedAt, t.resolutionTime)) = some (some 777, some 42) ∧
    some (777 : Int) ≠ (none : Option Int) :=
  ⟨rfl, rfl, rfl, rfl, by decide⟩

/-- C4 amended: resolving a non-resolved ticket stamps `resolvedAt = now` and
`resolutionTime = round((now - createdAt) / 60000)` minutes; any other
authorized update whose patch does not itself carry `resolvedAt` or
`resolutionTime` fields leaves both as previously stored. -/
theorem updateTicket_resolution_fields (u : Principal) (store : List Ticket) (id : String)
    (body : UpdatePatch) (now : Int) (t t' : Ticket)
    (hfind : store.find? (fun x => x.id == id) = some t)
    (h : updateTicket u store id body now = .ok t') :
    (body.status = some "resolved" → t.status ≠ "resolved" →
      t'.resolvedAt = some now ∧
      t'.resolutionTime =
        some (Int.floor (((now - t.createdAt : Int) : ℚ) / 60000 + 1 / 2))) ∧
    (¬(body.status = some "resolved" ∧ t.status ≠ "resolved") →
      body.resolvedAt = none → body.resolutionTime = none →
      t'.resolvedAt = t.resolvedAt ∧ t'.resolutionTime = t.resolutionTime) := by
  have hb : jsRoundDiv (now - t.createdAt) (1000 * 60) =
      Int.floor (((now - t.createdAt : Int) : ℚ) / 60000 + 1 / 2) := by
    rw [jsRoundDiv_eq_floor _ _ (by norm_num)]
    norm_num
  rcases updateTicket_ok_cases u store id body now t t' hfind h with ⟨hs, hns, rfl⟩ | ⟨hneg, rfl⟩
  · exact ⟨fun _ _ => by simp [applyPatch, hb], fun hcontra _ _ => absurd ⟨hs, hns⟩ hcontra⟩
  · exact ⟨fun hs hns => absurd ⟨hs, hns⟩ hneg, fun _ hra hrt => by simp [applyPatch, hra, hrt]⟩

/-- A PUT body that resolves the ticket. -/
def resolvePatch : UpdatePatch := { emptyPatch with status := some "resolved" }

/-- The result of resolving `baseTicket` 90 minutes after its creation. -/
def resolvedSample : Ticket :=
  { baseTicket with
    status := "resolved"
    resolvedAt := some 5400000
    resolutionTime := some 90
    updatedAt := 5400000 }

theorem updateTicket_resolution_fields_witness :
    resolvedSample.resolvedAt = some 5400000 ∧
    resolvedSample.resolutionTime =
      some (Int.floor (((5400000 - baseTicket.createdAt : Int) : ℚ) / 60000 + 1 / 2)) :=
  (updateTicket_resolution_fields pAgent [baseTicket] "t1" resolvePatch 5400000 baseTicket
      resolvedSample (by rfl) (by rfl)).1 rfl (by decide)

/-! ### C8 -/

/-- A PUT body re-setting the current status while also carrying
`resolvedAt`. -/
def sameStatusSneakPatch : UpdatePatch :=
  { emptyPatch with status := some "open", resolvedAt := some 888 }

/-- C8 counterexample: a patch that sets status to the ticket's current value
can still change `resolvedAt` when the body carries that field too. -/
theorem update_same_status_changes_resolution_cex :
    baseTicket.status = "open" ∧ sameStatusSneakPatch.status = some baseTicket.status ∧
    baseTicket.resolvedAt = none ∧
    (updateTicket pAdmin [baseTicket] "t1" sameStatusSneakPatch 50).toOption.map
      (fun t => t.resolvedAt) = some (some 888) ∧
    some (888 : Int) ≠ (none : Option Int) :=
  ⟨rfl, rfl, rfl, rfl, by decide⟩

/-- C8 amended: creation always yields status `open`, and an authorized
update whose patch sets status to the current value and does not itself carry
`resolvedAt`/`resolutionTime` fields leaves both unchanged. -/
theorem create_open_and_same_status_update (u v : Principal) (draft : TicketDraft)
    (newId : String) (nowC : Int) (tc : Ticket) (store : List Ticket) (id : String)
    (body : UpdatePatch) (now : Int) (t t' : Ticket)
    (hc : createTicket u draft newId nowC = .ok tc)
    (hfind : store.find? (fun x => x.id == id) = some t)
    (hst : body.status = some t.status)
    (hra : body.resolvedAt = none) (hrt : body.resolutionTime = none)
    (h : updateTicket v store id body now = .ok t') :
    tc.status = "open" ∧ t'.resolvedAt = t.resolvedAt ∧
      t'.resolutionTime = t.resolutionTime := by
  refine ⟨?_, ?_⟩
  · unfold createTicket at hc
    split at hc
    · cases hc
    · dsimp only at hc
      split at hc
      · cases hc
      · cases hc
        rfl
  · rcases updateTicket_ok_cases v store id body now t t' hfind h with ⟨hs, hns, rfl⟩ | ⟨-, rfl⟩
    · rw [hst] at hs
      exact absurd (by injection hs) hns
    · simp [applyPatch, hra, hrt]

/-- A PUT body re-setting the current status and nothing else. -/
def sameStatusPatch : UpdatePatch := { emptyPatch with status := some "open" }

/-- The result of applying `sameStatusPatch` to `baseTicket` at time 50. -/
def updatedSame : Ticket := { baseTicket with updatedAt := 50 }

theorem create_open_and_same_status_update_witness :
    createdSample.status = "open" ∧ updatedSame.resolvedAt = baseTicket.resolvedAt ∧
      updatedSame.resolutionTime = baseTicket.resolutionTime := by
  have hg := create_open_and_same_status_update pUser pAdmin draftOk "t9" 5 createdSample
    [baseTicket] "t1" sameStatusPatch 50 baseTicket updatedSame (by rfl) (by rfl) rfl rfl rfl
    (by rfl)
  exact ⟨hg.1, hg.2.1, hg.2.2⟩

/-! ### C1 -/

/-- C1: for an agent the stats endpoint succeeds and returns the one-pass
statistics of exactly the tickets with `assignedTo` equal to the agent's id,
and access-denied is returned precisely for role `user` (the gating
middleware, absent from the sources, is modelled from the spec as
`adminGateAllows`). -/
theorem stats_agent_scoped_and_user_denied (u : Principal) (store : List Ticket) (now : Int) :
    (u.role = "agent" →
      statsEndpoint u store now =
        .ok (computeStatsFrom (store.filter (fun t => t.assignedTo == some u.id)) now)) ∧
    (statsEndpoint u store now = .error .accessDenied ↔ u.role = "user") := by
  constructor
  · intro h
    have hallow : adminGateAllows u = true := by simp [adminGateAllows, h]
    have hscope : statsScope u = fun t => t.assignedTo == some u.id := by
      funext t
      simp [statsScope, h]
    rw [statsEndpoint, if_pos hallow, getDashboardStats_eq_computeStatsFrom, hscope]
  · constructor
    · intro he
      by_contra hne
      have hallow : adminGateAllows u = true := by
        simp only [adminGateAllows, bne_iff_ne, ne_eq]
        exact hne
      rw [statsEndpoint, if_pos hallow] at he
      cases he
    · intro h
      simp [statsEndpoint, adminGateAllows, h]

/-! ### C7 -/

/-- A resolved assigned ticket with resolution time 1 minute. -/
def rt1 : Ticket :=
  { baseTicket with
    id := "c1", status := "resolved", resolutionTime := some 1, resolvedAt := some 60000 }

/-- A resolved assigned ticket with resolution time 2 minutes. -/
def rt2 : Ticket :=
  { baseTicket with
    id := "c2", status := "resolved", resolutionTime := some 2, resolvedAt := some 120000 }

def c7Store : List Ticket := [rt1, rt2]

/-- C7 counterexample: with two qualifying tickets of resolution times 1 and
2 the arithmetic mean is 3/2, but the reported avgResolutionTime is the
rounded value 2. -/
theorem avg_not_arithmetic_mean_cex :
    (statsEndpoint pAgent c7Store 0).toOption.map StatsReport.avgResolutionTime = some 2 ∧
    resTimeSum (c7Store.filter (fun t => statsScope pAgent t &&
      (t.status == "resolved" && hasPosResTime t))) = 3 ∧
    (c7Store.filter (fun t => statsScope pAgent t &&
      (t.status == "resolved" && hasPosResTime t))).length = 2 ∧
    ((2 : ℚ) ≠ 3 / 2) :=
  ⟨rfl, rfl, rfl, by norm_num⟩

/-- The `resolvedTicketsWithTime` query of the controller: in-scope resolved
tickets whose resolution time is non-null and positive. -/
def qualifyingRes (u : Principal) (store : List Ticket) : List Ticket :=
  store.filter (fun t => statsScope u t && (t.status == "resolved" && hasPosResTime t))

/-- C7 amended: the reported avgResolutionTime of a successful stats call is
`Math.round` of the arithmetic mean of `resolutionTime` over the in-scope
resolved tickets with positive resolution time (the floor of mean + 1/2),
and it is 0 — not null — when no ticket qualifies. -/
theorem avgResolutionTime_rounded_mean (u : Principal) (store : List Ticket) (now : Int)
    (r : StatsReport) (h : statsEndpoint u store now = .ok r) :
    (0 < (qualifyingRes u store).length →
      r.avgResolutionTime = Int.floor ((resTimeSum (qualifyingRes u store) : ℚ) /
        ((qualifyingRes u store).length : ℚ) + 1 / 2)) ∧
    ((qualifyingRes u store).length = 0 → r.avgResolutionTime = 0) := by
  have hr : r = getDashboardStats u store now := by
    unfold statsEndpoint at h
    split at h
    · cases h
      rfl
    · cases h
  subst hr
  have havg : (getDashboardStats u store now).avgResolutionTime =
      (if 0 < (qualifyingRes u store).length then
        jsRoundDiv (resTimeSum (qualifyingRes u store)) (qualifyingRes u store).length
      else 0) := rfl
  constructor
  · intro hlen
    rw [havg, if_pos hlen]
    exact jsRoundDiv_eq_floor _ _ hlen
  · intro hlen
    rw [havg, hlen]
    simp

/-- The report `statsEndpoint pAgent c7Store 0` produces. -/
def c7Report : StatsReport :=
  { totalTickets := 2
    openTickets := 0
    pendingTickets := 0
    resolvedTickets := 2
    closedTickets := 0
    avgResolutionTime := 2
    slaComplianceRate := 100
    slaCompliantTickets := 2
    priorityStats := [("high", 2)]
    categoryStats := [("technical", 2)]
    statusStats := [("resolved", 2)]
    recentTickets := 2
    slaNormal := 0
    slaWarning := 0
    slaBreached := 0 }

theorem avgResolutionTime_rounded_mean_witness :
    c7Report.avgResolutionTime = Int.floor ((resTimeSum (qualifyingRes pAgent c7Store) : ℚ) /
      ((qualifyingRes pAgent c7Store).length : ℚ) + 1 / 2) :=
  (avgResolutionTime_rounded_mean pAgent c7Store 0 c7Report (by rfl)).1 (by decide)

end Helpdesk
